import Mathlib

/-!
# Verification of osml-cdk-constructs against its specification

Shallow embedding of the AWS CDK constructs of this repository
(`DCDataplane` with its config in `src/unnamed/part_001`, `TSLambdaRole` in
`src/lib/osml/tile_server/roles/ts_lambda_role.ts`) as pure Lean functions.
A construct's side-effecting constructor is embedded as a total function
from its property record (plus the cloud-assigned identifiers such as the
OpenSearch domain endpoint and ARN, which only exist after provisioning)
to a result record holding the construct's public fields together with an
ordered log of the resource declarations it produced.

TypeScript/JavaScript semantics captured by the embedding:
* optional properties (`x?: T`) become `Option T`;
* `if (props.securityGroupId)` is JavaScript truthiness on a string: the
  branch is taken exactly when the string is present and non-empty;
* `if (props.lambdaRole != undefined)` / `if (props.config != undefined)`
  and `if (props.ingestTopic)` on an object are taken exactly when the
  value is present;
* the TypeScript non-null assertion operator `!` is erased at compile time
  and performs no runtime check, and interpolating the JavaScript value
  `undefined` into a template literal yields the string `"undefined"`.
-/

/-- Removal policy of a declared resource (`aws-cdk-lib` `RemovalPolicy`;
only the two members used by this repository are modelled). -/
inductive RemovalPolicy where
  | RETAIN
  | DESTROY
deriving DecidableEq, Repr

/-- Modelled from the spec: `osml_account.ts` (the `OSMLAccount` interface) is
not under `src/`. Per the spec's data model, an account descriptor identifies
the target deployment environment: account id, region, production flag; the
dataplane additionally reads an `auth` flag ("flagged as requiring
authenticated external access"). -/
structure OSMLAccount where
  id : String
  region : String
  prodLike : Bool
  auth : Bool
deriving DecidableEq, Repr

/-- Modelled from the spec: `osml_vpc.ts` (the `OSMLVpc` construct) is not
under `src/`. Per the spec's data model it is the network context threaded
through every resource: a virtual network handle plus a subnet selection.
`DCDataplane` reads `osmlVpc.vpc` and `osmlVpc.selectedSubnets.subnetIds`. -/
structure OSMLVpc where
  vpcId : String
  subnetIds : List String
deriving DecidableEq, Repr

/-- Handle to an IAM role (`IRole`). -/
structure RoleRef where
  roleName : String
deriving DecidableEq, Repr

/-- Handle to an SNS topic (`ITopic`). -/
structure TopicRef where
  topicName : String
deriving DecidableEq, Repr

/-- Handle to an EC2 security group (`ISecurityGroup`). -/
structure SecurityGroupRef where
  securityGroupId : String
deriving DecidableEq, Repr

/-- `SecurityGroup.fromSecurityGroupId`: imports an existing security group
by its id. An import declares no new resource. -/
def SecurityGroup.fromSecurityGroupId (securityGroupId : String) : SecurityGroupRef :=
  ⟨securityGroupId⟩

/-- Modelled from the spec: `dc_lambda_role.ts` (the `DCLambdaRole` construct)
is not under `src/`. Per the spec's role-composition contract, given an
account and a role name it produces one named access-control principal;
`DCDataplane.setup` consumes only its `.role` handle. -/
def DCLambdaRole.role (account : OSMLAccount) (roleName : String) : RoleRef :=
  ⟨roleName⟩

/-- The environment mapping injected into both container functions
(the `env` object literal of the `DCDataplane` constructor). -/
structure DCEnv where
  STAC_FASTAPI_TITLE : String
  STAC_FASTAPI_DESCRIPTION : String
  STAC_FASTAPI_VERSION : String
  RELOAD : String
  ENVIRONMENT : String
  WEB_CONCURRENCY : String
  ES_HOST : String
  ES_PORT : String
  ES_USE_SSL : String
  ES_VERIFY_CERTS : String
  STAC_FASTAPI_ROOT_PATH : String
deriving DecidableEq, Repr

/-- A declared `DockerImageFunction` with the properties the constructor
passes to it. -/
structure FunctionRef where
  functionName : String
  code : String
  role : RoleRef
  timeoutSeconds : Nat
  ephemeralStorageGiB : Nat
  memorySize : Nat
  environment : DCEnv
deriving DecidableEq, Repr

/-- One statement of an OpenSearch domain access policy (`PolicyStatement`);
`AnyPrincipal` is rendered as the principal `"*"`. -/
structure DomainPolicyStatement where
  principals : List String
  actions : List String
  resources : List String
deriving DecidableEq, Repr

/-- A declared OpenSearch `Domain` with the properties the constructor
passes to it, together with the access policies attached afterwards. -/
structure DomainRec where
  constructId : String
  dataNodes : Nat
  removalPolicy : RemovalPolicy
  availabilityZoneCount : Nat
  accessPolicies : List DomainPolicyStatement
deriving DecidableEq, Repr

/-- A declared `OSMLRestApi`. Modelled from the spec: `osml_restapi.ts` is not
under `src/`; per the spec it is a routing/integration resource fronting the
compute resource given as its integration. -/
structure RestApiRec where
  name : String
  apiStageName : String
  integration : FunctionRef
deriving DecidableEq, Repr

/-- One entry of the ordered declaration log produced by a construct:
each constructor of this type is one kind of cloud resource declaration
made by the code under verification. Imports (`fromSecurityGroupId`)
declare nothing and therefore never appear in the log. -/
inductive CreatedResource where
  | role (roleName : String)
  | topic (topicName : String)
  | securityGroup (constructId : String)
  | domain (d : DomainRec)
  | lambdaFunction (f : FunctionRef)
  | restApi (r : RestApiRec)
  | subscription (topicName : String) (functionName : String)
  | networkRule (domainId : String) (functionName : String) (port : Nat)
deriving DecidableEq, Repr

/-- `DCDataplaneConfig`: the configuration record for the `DCDataplane`
construct, with one field per constructor parameter, in source order. -/
structure DCDataplaneConfig where
  LAMBDA_ROLE_NAME : String
  LAMBDA_MEMORY_SIZE : Nat
  LAMBDA_STORAGE_SIZE : Nat
  LAMBDA_TIMEOUT : Nat
  OS_DATA_NODES : Nat
  OS_EBS_SIZE : Nat
  STAC_FASTAPI_BACKEND : String
  STAC_FASTAPI_TITLE : String
  STAC_FASTAPI_DESCRIPTION : String
  STAC_FASTAPI_VERSION : String
  STAC_FASTAPI_ROOT_PATH : String
  RELOAD : String
  ENVIRONMENT : String
  WEB_CONCURRENCY : String
  ES_PORT : String
  ES_USE_SSL : String
  ES_VERIFY_CERTS : String
  SERVICE_NAME_ABBREVIATION : String
  SNS_INGEST_TOPIC_NAME : String
deriving DecidableEq, Repr

/-- The `DCDataplaneConfig` constructor applied with every argument given
explicitly (TypeScript positional constructor parameters). -/
def DCDataplaneConfig.new
    (LAMBDA_ROLE_NAME : String) (LAMBDA_MEMORY_SIZE : Nat)
    (LAMBDA_STORAGE_SIZE : Nat) (LAMBDA_TIMEOUT : Nat)
    (OS_DATA_NODES : Nat) (OS_EBS_SIZE : Nat)
    (STAC_FASTAPI_BACKEND : String) (STAC_FASTAPI_TITLE : String)
    (STAC_FASTAPI_DESCRIPTION : String) (STAC_FASTAPI_VERSION : String)
    (STAC_FASTAPI_ROOT_PATH : String) (RELOAD : String)
    (ENVIRONMENT : String) (WEB_CONCURRENCY : String)
    (ES_PORT : String) (ES_USE_SSL : String) (ES_VERIFY_CERTS : String)
    (SERVICE_NAME_ABBREVIATION : String) (SNS_INGEST_TOPIC_NAME : String) :
    DCDataplaneConfig :=
  ⟨LAMBDA_ROLE_NAME, LAMBDA_MEMORY_SIZE, LAMBDA_STORAGE_SIZE, LAMBDA_TIMEOUT,
   OS_DATA_NODES, OS_EBS_SIZE, STAC_FASTAPI_BACKEND, STAC_FASTAPI_TITLE,
   STAC_FASTAPI_DESCRIPTION, STAC_FASTAPI_VERSION, STAC_FASTAPI_ROOT_PATH,
   RELOAD, ENVIRONMENT, WEB_CONCURRENCY, ES_PORT, ES_USE_SSL,
   ES_VERIFY_CERTS, SERVICE_NAME_ABBREVIATION, SNS_INGEST_TOPIC_NAME⟩

/-- `new DCDataplaneConfig()`: the constructor applied with no arguments,
every parameter at its source default. -/
def DCDataplaneConfig.mkDefault : DCDataplaneConfig :=
  DCDataplaneConfig.new "DCLambdaRole" 4096 10 300 4 10 "opensearch"
    "stac-fastapi-opensearch" "A STAC FastAPI with an OpenSearch backend"
    "2.4.1" "data-catalog" "true" "local" "10" "443" "true" "true" "DC"
    "osml-stac-ingest"

/-- `DCDataplaneProps`: the property record of the `DCDataplane` construct,
fields in source order; optional properties are `Option`. -/
structure DCDataplaneProps where
  account : OSMLAccount
  osmlVpc : OSMLVpc
  stacCode : String
  ingestCode : String
  ingestTopic : Option TopicRef
  securityGroupId : Option String
  lambdaRole : Option RoleRef
  config : Option DCDataplaneConfig
deriving DecidableEq, Repr

/-- The state assigned by `DCDataplane.setup`: the construct's public fields
it writes, plus the ordered log of resources it declares. `securityGroup`
is optional in the source (`public securityGroup?: ISecurityGroup`) and is
only assigned inside the `if (props.securityGroupId)` branch. -/
structure DCSetup where
  config : DCDataplaneConfig
  securityGroup : Option SecurityGroupRef
  ingestTopic : TopicRef
  removalPolicy : RemovalPolicy
  lambdaRole : RoleRef
  created : List CreatedResource
deriving DecidableEq, Repr

/-- `DCDataplane.setup`, statement by statement in source order:
resolve the config (supplied or freshly defaulted), import the security
group when a non-empty id was supplied (JavaScript truthiness), reuse or
create the ingest topic, compute the removal policy, reuse or create the
lambda role. -/
def DCDataplane.setup (props : DCDataplaneProps) : DCSetup :=
  let config : DCDataplaneConfig :=
    match props.config with
    | some c => c
    | none => DCDataplaneConfig.mkDefault
  let securityGroup : Option SecurityGroupRef :=
    match props.securityGroupId with
    | some sgId =>
        if sgId = "" then none
        else some (SecurityGroup.fromSecurityGroupId sgId)
    | none => none
  let topicPart : TopicRef × List CreatedResource :=
    match props.ingestTopic with
    | some t => (t, [])
    | none =>
        (⟨config.SNS_INGEST_TOPIC_NAME⟩,
         [CreatedResource.topic config.SNS_INGEST_TOPIC_NAME])
  let removalPolicy : RemovalPolicy :=
    if props.account.prodLike then RemovalPolicy.RETAIN
    else RemovalPolicy.DESTROY
  let rolePart : RoleRef × List CreatedResource :=
    match props.lambdaRole with
    | some r => (r, [])
    | none =>
        (DCLambdaRole.role props.account config.LAMBDA_ROLE_NAME,
         [CreatedResource.role config.LAMBDA_ROLE_NAME])
  ⟨config, securityGroup, topicPart.1, removalPolicy, rolePart.1,
   topicPart.2 ++ rolePart.2⟩

/-- The public fields of a constructed `DCDataplane`, together with the
full ordered declaration log of the constructor. -/
structure DCDataplaneResult where
  removalPolicy : RemovalPolicy
  config : DCDataplaneConfig
  lambdaRole : RoleRef
  ingestTopic : TopicRef
  securityGroup : Option SecurityGroupRef
  stacFunction : FunctionRef
  ingestFunction : FunctionRef
  resources : List CreatedResource
deriving DecidableEq, Repr

/-- The `DCDataplane` constructor. `domainEndpoint` and `domainArn` stand for
the cloud-assigned endpoint and ARN of the OpenSearch domain the constructor
declares (CDK tokens resolved at deployment): `osDomain.domainEndpoint` and
`osDomain.domainArn`. Declarations are logged in source order: setup's
creations, the `DCOSSecurityGroup`, the `DCOSDomain` (with the single access
policy attached by `addAccessPolicies`), the STAC function, its network rule,
the conditional `DCRestApi`, the ingest function, the topic subscription,
and the ingest function's network rule. -/
def DCDataplane.construct (props : DCDataplaneProps)
    (domainEndpoint domainArn : String) : DCDataplaneResult :=
  let s := DCDataplane.setup props
  let osDomain : DomainRec :=
    { constructId := "DCOSDomain"
      dataNodes := s.config.OS_DATA_NODES
      removalPolicy :=
        if props.account.prodLike then RemovalPolicy.RETAIN
        else RemovalPolicy.DESTROY
      availabilityZoneCount := props.osmlVpc.subnetIds.length
      accessPolicies := [⟨["*"], ["es:ESHttp*"], [domainArn ++ "/*"]⟩] }
  let env : DCEnv :=
    { STAC_FASTAPI_TITLE := s.config.STAC_FASTAPI_TITLE
      STAC_FASTAPI_DESCRIPTION := s.config.STAC_FASTAPI_DESCRIPTION
      STAC_FASTAPI_VERSION := s.config.STAC_FASTAPI_VERSION
      RELOAD := s.config.RELOAD
      ENVIRONMENT := s.config.ENVIRONMENT
      WEB_CONCURRENCY := s.config.WEB_CONCURRENCY
      ES_HOST := domainEndpoint
      ES_PORT := s.config.ES_PORT
      ES_USE_SSL := s.config.ES_USE_SSL
      ES_VERIFY_CERTS := s.config.ES_VERIFY_CERTS
      STAC_FASTAPI_ROOT_PATH := "/" ++ s.config.STAC_FASTAPI_ROOT_PATH }
  let stacFunction : FunctionRef :=
    { functionName := "DCStacLambda"
      code := props.stacCode
      role := s.lambdaRole
      timeoutSeconds := s.config.LAMBDA_TIMEOUT
      ephemeralStorageGiB := s.config.LAMBDA_STORAGE_SIZE
      memorySize := s.config.LAMBDA_MEMORY_SIZE
      environment := env }
  let restApiPart : List CreatedResource :=
    if props.account.auth then
      [CreatedResource.restApi
        ⟨s.config.SERVICE_NAME_ABBREVIATION, s.config.STAC_FASTAPI_ROOT_PATH,
         stacFunction⟩]
    else []
  let ingestFunction : FunctionRef :=
    { functionName := "DCIngestLambda"
      code := props.ingestCode
      role := s.lambdaRole
      timeoutSeconds := s.config.LAMBDA_TIMEOUT
      ephemeralStorageGiB := s.config.LAMBDA_STORAGE_SIZE
      memorySize := s.config.LAMBDA_MEMORY_SIZE
      environment := env }
  { removalPolicy := s.removalPolicy
    config := s.config
    lambdaRole := s.lambdaRole
    ingestTopic := s.ingestTopic
    securityGroup := s.securityGroup
    stacFunction := stacFunction
    ingestFunction := ingestFunction
    resources :=
      s.created
        ++ [CreatedResource.securityGroup "DCOSSecurityGroup",
            CreatedResource.domain osDomain,
            CreatedResource.lambdaFunction stacFunction,
            CreatedResource.networkRule "DCOSDomain" "DCStacLambda" 443]
        ++ restApiPart
        ++ [CreatedResource.lambdaFunction ingestFunction,
            CreatedResource.subscription s.ingestTopic.topicName
              "DCIngestLambda",
            CreatedResource.networkRule "DCOSDomain" "DCIngestLambda" 443] }

/-- Names of the new IAM roles in a declaration log. -/
def createdRoleNames (l : List CreatedResource) : List String :=
  l.filterMap fun r =>
    match r with
    | CreatedResource.role n => some n
    | _ => none

/-- Names of the new SNS topics in a declaration log. -/
def createdTopicNames (l : List CreatedResource) : List String :=
  l.filterMap fun r =>
    match r with
    | CreatedResource.topic n => some n
    | _ => none

/-- Construct ids of the new security groups in a declaration log. -/
def createdSecurityGroupIds (l : List CreatedResource) : List String :=
  l.filterMap fun r =>
    match r with
    | CreatedResource.securityGroup n => some n
    | _ => none

/-- The declared compute functions in a declaration log. -/
def createdFunctions (l : List CreatedResource) : List FunctionRef :=
  l.filterMap fun r =>
    match r with
    | CreatedResource.lambdaFunction f => some f
    | _ => none

/-- The declared OpenSearch domains in a declaration log. -/
def createdDomains (l : List CreatedResource) : List DomainRec :=
  l.filterMap fun r =>
    match r with
    | CreatedResource.domain d => some d
    | _ => none

/-- The declared routing/integration resources in a declaration log. -/
def createdRestApis (l : List CreatedResource) : List RestApiRec :=
  l.filterMap fun r =>
    match r with
    | CreatedResource.restApi a => some a
    | _ => none

/-- Effect of an IAM policy statement (only `ALLOW` is used). -/
inductive Effect where
  | ALLOW
  | DENY
deriving DecidableEq, Repr

/-- One IAM `PolicyStatement` added to a role via `addToPolicy`. -/
structure IamStatement where
  effect : Effect
  actions : List String
  resources : List String
deriving DecidableEq, Repr

/-- Modelled from the spec: `ts_dataplane.ts` (the `TSDataplaneConfig` class)
is not under `src/`; only its default DDB job table name is consumed by
`TSLambdaRole`, which interpolates it into the DynamoDB resource ARN.
The spec calls it "the default DDB job table name". -/
structure TSDataplaneConfig where
  DDB_JOB_TABLE : String
deriving DecidableEq, Repr

/-- Modelled from the spec: the `TSDataplaneConfig` default constructor,
producing the documented default DDB job table name. -/
def TSDataplaneConfig.mkDefault : TSDataplaneConfig :=
  ⟨"TSJobTable"⟩

/-- `region_info.Fact.find(region, FactName.PARTITION)` from `aws-cdk-lib`:
looks the region up in the static region-facts database and returns its
partition, or `undefined` (`none`) when the region has no recorded
partition. The database is passed in as an association list. -/
def Fact.findPartition (table : List (String × String)) (region : String) :
    Option String :=
  (table.find? fun p => p.1 = region).map Prod.snd

/-- Template-literal interpolation of a TypeScript `string` variable that may
hold the JavaScript value `undefined` at runtime: `undefined` renders as the
string `"undefined"`. -/
def jsInterp (s : Option String) : String :=
  match s with
  | some v => v
  | none => "undefined"

/-- `TSLambdaRoleProps`: account plus the name to give the role. -/
structure TSLambdaRoleProps where
  account : OSMLAccount
  roleName : String
deriving DecidableEq, Repr

/-- The public fields of a constructed `TSLambdaRole` together with the
policy statements added to its role, in source order. `partition` holds
the raw result of the partition lookup: the source applies the TypeScript
non-null assertion `!` to it, which is erased at runtime, so a failed
lookup leaves the field `undefined` (`none`) and construction continues. -/
structure TSLambdaRoleResult where
  partition : Option String
  tsDataplaneConfig : TSDataplaneConfig
  roleName : String
  assumedBy : List String
  statements : List IamStatement
deriving DecidableEq, Repr

/-- The `TSLambdaRole` constructor, statement by statement in source order:
partition lookup (non-null-asserted, no runtime check), role creation with
a lambda service principal, then four `addToPolicy` calls (DynamoDB item
access on the job table, lambda configuration read, the ELB/EC2
network-interface action set on `*`, and CloudWatch Logs access), each ARN
interpolated from the looked-up partition, the account region and the
account id. The function is total: a failed partition lookup does not abort
construction, it interpolates as `"undefined"`. -/
def TSLambdaRole.construct (table : List (String × String))
    (props : TSLambdaRoleProps) : TSLambdaRoleResult :=
  let partition : Option String :=
    Fact.findPartition table props.account.region
  let cfg : TSDataplaneConfig := TSDataplaneConfig.mkDefault
  let p : String := jsInterp partition
  { partition := partition
    tsDataplaneConfig := cfg
    roleName := props.roleName
    assumedBy := ["lambda.amazonaws.com"]
    statements :=
      [⟨Effect.ALLOW,
        ["dynamodb:GetItem", "dynamodb:PutItem", "dynamodb:UpdateItem"],
        ["arn:" ++ p ++ ":dynamodb:" ++ props.account.region ++ ":"
          ++ props.account.id ++ ":table/" ++ cfg.DDB_JOB_TABLE]⟩,
       ⟨Effect.ALLOW,
        ["lambda:GetFunctionConfiguration"],
        ["arn:" ++ p ++ ":lambda:" ++ props.account.region ++ ":"
          ++ props.account.id ++ ":function:*"]⟩,
       ⟨Effect.ALLOW,
        ["elasticloadbalancing:DescribeLoadBalancers",
         "ec2:CreateNetworkInterface",
         "ec2:DescribeNetworkInterfaces",
         "ec2:DeleteNetworkInterface",
         "ec2:DescribeInstances",
         "ec2:AttachNetworkInterface"],
        ["*"]⟩,
       ⟨Effect.ALLOW,
        ["logs:CreateLogGroup", "logs:CreateLogStream", "logs:PutLogEvents"],
        ["arn:" ++ p ++ ":logs:" ++ props.account.region ++ ":"
          ++ props.account.id ++ ":*"]⟩] }

/-- The permission statements the specification enumerates for the tile
server lambda role, written from the spec's words for the refinement claim:
fixed action lists with each resource ARN interpolated from the resolved
partition, the account region, the account id and the default DDB job
table name. -/
def tsLambdaRoleSpecStatements (partition region accountId : String) :
    List IamStatement :=
  [⟨Effect.ALLOW,
    ["dynamodb:GetItem", "dynamodb:PutItem", "dynamodb:UpdateItem"],
    ["arn:" ++ partition ++ ":dynamodb:" ++ region ++ ":" ++ accountId
      ++ ":table/" ++ TSDataplaneConfig.mkDefault.DDB_JOB_TABLE]⟩,
   ⟨Effect.ALLOW,
    ["lambda:GetFunctionConfiguration"],
    ["arn:" ++ partition ++ ":lambda:" ++ region ++ ":" ++ accountId
      ++ ":function:*"]⟩,
   ⟨Effect.ALLOW,
    ["elasticloadbalancing:DescribeLoadBalancers",
     "ec2:CreateNetworkInterface",
     "ec2:DescribeNetworkInterfaces",
     "ec2:DeleteNetworkInterface",
     "ec2:DescribeInstances",
     "ec2:AttachNetworkInterface"],
    ["*"]⟩,
   ⟨Effect.ALLOW,
    ["logs:CreateLogGroup", "logs:CreateLogStream", "logs:PutLogEvents"],
    ["arn:" ++ partition ++ ":logs:" ++ region ++ ":" ++ accountId
      ++ ":*"]⟩]

/-- A concrete property record with every optional property omitted, used as
the concrete input of counterexamples and witnesses. -/
def props0 : DCDataplaneProps :=
  ⟨⟨"123456789012", "us-east-1", false, false⟩,
   ⟨"vpc-12345", ["subnet-a", "subnet-b"]⟩,
   "stac-image", "ingest-image", none, none, none, none⟩

/-- C1 counterexample: the claim states that with every optional collaborator
omitted, each of `lambdaRole`, `ingestTopic` and `securityGroup` holds a
default-created resource and none is undefined. On the concrete input
`props0` (no ingestTopic, no securityGroupId, no lambdaRole) the
`securityGroup` field is `none` after setup — the source only assigns it
inside the `if (props.securityGroupId)` branch — so the claim is false. -/
theorem dc_setup_all_omitted_securityGroup_undefined :
    (DCDataplane.setup props0).securityGroup = none := by
  decide

/-- C1 (amended): with every optional property omitted, setup default-creates
the lambda role (named per the default config) and the ingest topic (named
`osml-stac-ingest`), and both public fields hold those resources; the
`securityGroup` field however remains undefined. -/
theorem dc_setup_all_omitted_defaults (account : OSMLAccount) (vpc : OSMLVpc)
    (stacCode ingestCode : String) :
    (DCDataplane.setup
        ⟨account, vpc, stacCode, ingestCode, none, none, none, none⟩).lambdaRole
      = ⟨"DCLambdaRole"⟩ ∧
    (DCDataplane.setup
        ⟨account, vpc, stacCode, ingestCode, none, none, none, none⟩).ingestTopic
      = ⟨"osml-stac-ingest"⟩ ∧
    createdRoleNames (DCDataplane.setup
        ⟨account, vpc, stacCode, ingestCode, none, none, none, none⟩).created
      = ["DCLambdaRole"] ∧
    createdTopicNames (DCDataplane.setup
        ⟨account, vpc, stacCode, ingestCode, none, none, none, none⟩).created
      = ["osml-stac-ingest"] ∧
    (DCDataplane.setup
        ⟨account, vpc, stacCode, ingestCode, none, none, none, none⟩).securityGroup
      = none := by
  simp [DCDataplane.setup, DCDataplaneConfig.mkDefault, DCDataplaneConfig.new,
    DCLambdaRole.role, createdRoleNames, createdTopicNames]

/-- C2: supplying an existing role, topic, or (non-empty) security group id
means setup adopts the supplied handle verbatim — the public output field
exactly equals the input — and declares no new resource of that kind. -/
theorem dc_setup_adopts_supplied (p : DCDataplaneProps) (r : RoleRef)
    (t : TopicRef) (sgId : String) (h : sgId ≠ "") :
    ((DCDataplane.setup {p with lambdaRole := some r}).lambdaRole = r ∧
      createdRoleNames
        (DCDataplane.setup {p with lambdaRole := some r}).created = []) ∧
    ((DCDataplane.setup {p with ingestTopic := some t}).ingestTopic = t ∧
      createdTopicNames
        (DCDataplane.setup {p with ingestTopic := some t}).created = []) ∧
    ((DCDataplane.setup {p with securityGroupId := some sgId}).securityGroup
        = some (SecurityGroup.fromSecurityGroupId sgId) ∧
      createdSecurityGroupIds
        (DCDataplane.setup {p with securityGroupId := some sgId}).created
        = []) := by
  obtain ⟨acc, vpc, sc, ic, it, sg, lr, cfg⟩ := p
  refine ⟨⟨?_, ?_⟩, ⟨?_, ?_⟩, ⟨?_, ?_⟩⟩ <;>
    cases it <;> cases lr <;> cases cfg <;>
      simp [DCDataplane.setup, createdRoleNames, createdTopicNames,
        createdSecurityGroupIds, SecurityGroup.fromSecurityGroupId, h]

/-- C2 witness: the adoption theorem instantiated at a concrete property
record, role, topic and non-empty security group id. -/
theorem dc_setup_adopts_supplied_witness :
    ((DCDataplane.setup {props0 with lambdaRole := some ⟨"MyRole"⟩}).lambdaRole
        = ⟨"MyRole"⟩ ∧
      createdRoleNames
        (DCDataplane.setup
          {props0 with lambdaRole := some ⟨"MyRole"⟩}).created = []) ∧
    ((DCDataplane.setup
          {props0 with ingestTopic := some ⟨"my-topic"⟩}).ingestTopic
        = ⟨"my-topic"⟩ ∧
      createdTopicNames
        (DCDataplane.setup
          {props0 with ingestTopic := some ⟨"my-topic"⟩}).created = []) ∧
    ((DCDataplane.setup
          {props0 with securityGroupId := some "sg-0123"}).securityGroup
        = some (SecurityGroup.fromSecurityGroupId "sg-0123") ∧
      createdSecurityGroupIds
        (DCDataplane.setup
          {props0 with securityGroupId := some "sg-0123"}).created = []) :=
  dc_setup_adopts_supplied props0 ⟨"MyRole"⟩ ⟨"my-topic"⟩ "sg-0123" (by decide)

/-- C5: the config in effect is an all-or-nothing replacement. A supplied
config becomes the public config field unchanged; an absent config yields a
freshly constructed `DCDataplaneConfig` whose every field holds its
documented default value; and the constructor applied with explicit
arguments holds exactly those arguments, with no default leakage. -/
theorem dc_config_all_or_nothing (p : DCDataplaneProps) (c : DCDataplaneConfig)
    (a1 : String) (a2 a3 a4 a5 a6 : Nat)
    (a7 a8 a9 a10 a11 a12 a13 a14 a15 a16 a17 a18 a19 : String) :
    (DCDataplane.setup {p with config := some c}).config = c ∧
    (DCDataplane.setup {p with config := none}).config =
      ⟨"DCLambdaRole", 4096, 10, 300, 4, 10, "opensearch",
       "stac-fastapi-opensearch",
       "A STAC FastAPI with an OpenSearch backend", "2.4.1", "data-catalog",
       "true", "local", "10", "443", "true", "true", "DC",
       "osml-stac-ingest"⟩ ∧
    DCDataplaneConfig.new a1 a2 a3 a4 a5 a6 a7 a8 a9 a10 a11 a12 a13 a14 a15
        a16 a17 a18 a19 =
      ⟨a1, a2, a3, a4, a5, a6, a7, a8, a9, a10, a11, a12, a13, a14, a15, a16,
       a17, a18, a19⟩ := by
  obtain ⟨acc, vpc, sc, ic, it, sg, lr, cfg⟩ := p
  refine ⟨?_, ?_, rfl⟩ <;>
    simp [DCDataplane.setup, DCDataplaneConfig.mkDefault,
      DCDataplaneConfig.new]

/-- C6: the reuse-or-create outcome of each optional collaborator field is
independent of the other optional collaborator fields. Changing only the
supplied `lambdaRole` and `securityGroupId` leaves the resulting topic
handle and the set of topics created unchanged; changing only `ingestTopic`
and `securityGroupId` leaves the role outcome unchanged; changing only
`ingestTopic` and `lambdaRole` leaves the security-group outcome
unchanged. -/
theorem dc_setup_optional_independence (p : DCDataplaneProps)
    (r : Option RoleRef) (s : Option String) (t : Option TopicRef) :
    ((DCDataplane.setup
        {p with lambdaRole := r, securityGroupId := s}).ingestTopic =
      (DCDataplane.setup p).ingestTopic ∧
     createdTopicNames (DCDataplane.setup
        {p with lambdaRole := r, securityGroupId := s}).created =
      createdTopicNames (DCDataplane.setup p).created) ∧
    ((DCDataplane.setup
        {p with ingestTopic := t, securityGroupId := s}).lambdaRole =
      (DCDataplane.setup p).lambdaRole ∧
     createdRoleNames (DCDataplane.setup
        {p with ingestTopic := t, securityGroupId := s}).created =
      createdRoleNames (DCDataplane.setup p).created) ∧
    (DCDataplane.setup
        {p with ingestTopic := t, lambdaRole := r}).securityGroup =
      (DCDataplane.setup p).securityGroup := by
  obtain ⟨acc, vpc, sc, ic, it, sg, lr, cfg⟩ := p
  refine ⟨⟨?_, ?_⟩, ⟨?_, ?_⟩, ?_⟩ <;>
    cases it <;> cases lr <;> cases r <;> cases t <;> cases cfg <;>
      simp [DCDataplane.setup, createdRoleNames, createdTopicNames,
        DCLambdaRole.role]

/-- C7: a routing/integration resource is declared if and only if the
account's `auth` flag is set: with `auth` true the declaration log holds
exactly one `OSMLRestApi`, whose integration is the STAC function; with
`auth` false it holds none. -/
theorem dc_rest_api_iff_auth (p : DCDataplaneProps)
    (domainEndpoint domainArn : String) :
    createdRestApis (DCDataplane.construct p domainEndpoint domainArn).resources
      = if p.account.auth then
          [⟨(DCDataplane.construct p domainEndpoint domainArn).config.SERVICE_NAME_ABBREVIATION,
            (DCDataplane.construct p domainEndpoint domainArn).config.STAC_FASTAPI_ROOT_PATH,
            (DCDataplane.construct p domainEndpoint domainArn).stacFunction⟩]
        else [] := by
  obtain ⟨⟨aid, areg, aprod, aauth⟩, vpc, sc, ic, it, sg, lr, cfg⟩ := p
  cases aauth <;> cases it <;> cases lr <;> cases cfg <;>
    simp [DCDataplane.construct, DCDataplane.setup, createdRestApis]

/-- C8: with no optional properties supplied, the composition declares
exactly one new role named per the default config's `LAMBDA_ROLE_NAME`,
exactly one new topic named `osml-stac-ingest`, exactly the two compute
functions (STAC then ingest) and exactly one search domain, and both
compute functions receive the same shared environment mapping, whose
`ES_HOST` entry is the created OpenSearch domain's endpoint. -/
theorem dc_default_resource_counts (account : OSMLAccount) (vpc : OSMLVpc)
    (stacCode ingestCode domainEndpoint domainArn : String) :
    createdRoleNames (DCDataplane.construct
        ⟨account, vpc, stacCode, ingestCode, none, none, none, none⟩
        domainEndpoint domainArn).resources = ["DCLambdaRole"] ∧
    createdTopicNames (DCDataplane.construct
        ⟨account, vpc, stacCode, ingestCode, none, none, none, none⟩
        domainEndpoint domainArn).resources = ["osml-stac-ingest"] ∧
    createdFunctions (DCDataplane.construct
        ⟨account, vpc, stacCode, ingestCode, none, none, none, none⟩
        domainEndpoint domainArn).resources =
      [(DCDataplane.construct
          ⟨account, vpc, stacCode, ingestCode, none, none, none, none⟩
          domainEndpoint domainArn).stacFunction,
       (DCDataplane.construct
          ⟨account, vpc, stacCode, ingestCode, none, none, none, none⟩
          domainEndpoint domainArn).ingestFunction] ∧
    (createdDomains (DCDataplane.construct
        ⟨account, vpc, stacCode, ingestCode, none, none, none, none⟩
        domainEndpoint domainArn).resources).length = 1 ∧
    (DCDataplane.construct
        ⟨account, vpc, stacCode, ingestCode, none, none, none, none⟩
        domainEndpoint domainArn).stacFunction.environment =
      (DCDataplane.construct
        ⟨account, vpc, stacCode, ingestCode, none, none, none, none⟩
        domainEndpoint domainArn).ingestFunction.environment ∧
    (DCDataplane.construct
        ⟨account, vpc, stacCode, ingestCode, none, none, none, none⟩
        domainEndpoint domainArn).stacFunction.environment.ES_HOST =
      domainEndpoint := by
  obtain ⟨aid, areg, aprod, aauth⟩ := account
  cases aauth <;>
    simp [DCDataplane.construct, DCDataplane.setup, DCDataplaneConfig.mkDefault,
      DCDataplaneConfig.new, DCLambdaRole.role, createdRoleNames,
      createdTopicNames, createdFunctions, createdDomains]

/-- C9: the public `removalPolicy` field and the OpenSearch domain's removal
policy are both `RETAIN` exactly when the account's `prodLike` flag is set,
and both `DESTROY` otherwise. -/
theorem dc_removal_policy_prodlike (p : DCDataplaneProps)
    (domainEndpoint domainArn : String) :
    (DCDataplane.construct p domainEndpoint domainArn).removalPolicy
      = (if p.account.prodLike then RemovalPolicy.RETAIN
         else RemovalPolicy.DESTROY) ∧
    (createdDomains (DCDataplane.construct p domainEndpoint
        domainArn).resources).map DomainRec.removalPolicy
      = [if p.account.prodLike then RemovalPolicy.RETAIN
         else RemovalPolicy.DESTROY] := by
  obtain ⟨⟨aid, areg, aprod, aauth⟩, vpc, sc, ic, it, sg, lr, cfg⟩ := p
  cases aprod <;> cases aauth <;> cases it <;> cases lr <;> cases cfg <;>
    simp [DCDataplane.construct, DCDataplane.setup, createdDomains]

/-- C10: for every property record, the created OpenSearch domain carries
exactly one access policy statement, granting any principal (`"*"`) the
`es:ESHttp*` actions on every resource under the domain's ARN; no property
narrows it. -/
theorem dc_domain_access_policy_any_principal (p : DCDataplaneProps)
    (domainEndpoint domainArn : String) :
    (createdDomains (DCDataplane.construct p domainEndpoint
        domainArn).resources).map DomainRec.accessPolicies
      = [[⟨["*"], ["es:ESHttp*"], [domainArn ++ "/*"]⟩]] := by
  obtain ⟨⟨aid, areg, aprod, aauth⟩, vpc, sc, ic, it, sg, lr, cfg⟩ := p
  cases aauth <;> cases it <;> cases lr <;> cases cfg <;>
    simp [DCDataplane.construct, DCDataplane.setup, createdDomains]

/-- A concrete region-facts table holding partitions for two commercial
regions only, used to exercise the partition lookup at concrete inputs. -/
def usPartitionTable : List (String × String) :=
  [("us-east-1", "aws"), ("us-west-2", "aws")]

/-- C3: evaluation of `TSLambdaRole` at an account whose region has no
recorded partition. The partition lookup returns nothing, yet construction
completes — the TypeScript non-null assertion on the lookup result is
erased at runtime — and the produced role's interpolated resource ARNs
contain the literal string `undefined` as the partition. The specification
instead requires the composition to fail immediately with a hard error and
to produce no role with malformed ARNs. -/
theorem ts_lambda_role_lookup_failure_completes :
    Fact.findPartition usPartitionTable "xx-isolated-1" = none ∧
    (TSLambdaRole.construct usPartitionTable
        ⟨⟨"123456789012", "xx-isolated-1", false, false⟩,
         "TSLambdaRole"⟩).partition = none ∧
    ((TSLambdaRole.construct usPartitionTable
        ⟨⟨"123456789012", "xx-isolated-1", false, false⟩,
         "TSLambdaRole"⟩).statements.map IamStatement.resources)
      = [["arn:undefined:dynamodb:xx-isolated-1:123456789012:table/TSJobTable"],
         ["arn:undefined:lambda:xx-isolated-1:123456789012:function:*"],
         ["*"],
         ["arn:undefined:logs:xx-isolated-1:123456789012:*"]] := by
  decide

/-- C4: whenever the partition lookup for the account's region resolves,
the constructed role's permission statements exactly equal the
specification's enumerated statements — the fixed DynamoDB, lambda,
ELB/EC2 network-interface and CloudWatch Logs action lists, each resource
ARN interpolated from the resolved partition, the account region, the
account id and the default DDB job table name — no more and no fewer. -/
theorem ts_lambda_role_statements_match_spec (table : List (String × String))
    (account : OSMLAccount) (roleName partition : String)
    (h : Fact.findPartition table account.region = some partition) :
    (TSLambdaRole.construct table ⟨account, roleName⟩).statements
      = tsLambdaRoleSpecStatements partition account.region account.id := by
  simp [TSLambdaRole.construct, tsLambdaRoleSpecStatements, jsInterp, h,
    TSDataplaneConfig.mkDefault]

/-- C4 witness: the statement-refinement theorem instantiated at the
concrete table `usPartitionTable` and a concrete `us-east-1` account,
where the partition resolves to `aws`. -/
theorem ts_lambda_role_statements_match_spec_witness :
    (TSLambdaRole.construct usPartitionTable
        ⟨⟨"123456789012", "us-east-1", false, false⟩,
         "TSLambdaRole"⟩).statements
      = tsLambdaRoleSpecStatements "aws" "us-east-1" "123456789012" :=
  ts_lambda_role_statements_match_spec usPartitionTable
    ⟨"123456789012", "us-east-1", false, false⟩ "TSLambdaRole" "aws"
    (by decide)
